import Mathlib

/-!
Shallow embedding of the ORA memory service (src/main.py, src/memory.py).

The SQLite store is modelled as an in-memory structure: a list of user rows
and a list of conversation rows.  Timestamps are modelled as natural numbers
(the code generates ISO-8601 strings from a monotone clock and compares them
lexicographically, which is order-isomorphic to a numeric clock).  SQLite
dynamic column values (NULL, TEXT, INTEGER, and Python booleans stored as
integers) are modelled by the inductive type `JVal`, and Python truthiness
by `jtruthy`.  Each Flask handler becomes a pure function from its request
data and the current clock to a response (or an HTTP error code) and the
successor store; a single commit in the handler corresponds to the single
pure transition.
-/

deriving instance DecidableEq for Except

namespace OraMemory

/-- A JSON / SQLite dynamic value as passed through the handlers. -/
inductive JVal where
  | null
  | str (s : String)
  | bool (b : Bool)
  | int (n : Int)
deriving DecidableEq, Repr

/-- Python truthiness of a request or column value: None, the empty string,
False and 0 are falsy, everything else is truthy. -/
def jtruthy : JVal → Bool
  | .null => false
  | .str s => s ≠ ""
  | .bool b => b
  | .int n => n ≠ 0

/-- Rendering of a value inside an f-string, as Python str() would. -/
def jstr : JVal → String
  | .null => "None"
  | .str s => s
  | .bool b => if b then "True" else "False"
  | .int n => toString n

/-- json.dumps on a scalar value (string escaping elided; no claim
exercises it on strings containing quotes). -/
def jsonDumps : JVal → String
  | .null => "null"
  | .str s => "\"" ++ s ++ "\""
  | .bool b => if b then "true" else "false"
  | .int n => toString n

/-- A row of the `users` table (src/main.py lines 26-38).  Optional text
columns default to NULL; `onboarding_complete` defaults to 0 (false). -/
structure UserProfile where
  user_id : String
  name : JVal := .null
  personality_type : JVal := .null
  communication_style : JVal := .null
  first_visit : Nat
  last_visit : Nat
  onboarding_complete : JVal := .bool false
  preferences : JVal := .null
  total_conversations : Nat := 0
deriving DecidableEq, Repr

/-- A row of the `conversations` table (src/main.py lines 41-53). -/
structure ConversationRecord where
  id : Nat
  user_id : String
  timestamp : Nat
  user_message : String
  ora_response : String
  emotion : String
  topic : String
  session_id : String
deriving DecidableEq, Repr

/-- The whole SQLite database. -/
structure Store where
  users : List UserProfile
  conversations : List ConversationRecord
deriving DecidableEq, Repr

def emptyStore : Store := { users := [], conversations := [] }

/-- SELECT * FROM users WHERE user_id = ? (primary-key lookup). -/
def findUser (s : Store) (uid : String) : Option UserProfile :=
  s.users.find? (fun u => u.user_id = uid)

/-- Insert a record into a list already sorted by timestamp descending,
keeping it sorted and stable (earlier-stored rows stay first among ties). -/
def insertByTsDesc (c : ConversationRecord) :
    List ConversationRecord → List ConversationRecord
  | [] => [c]
  | x :: xs =>
      if x.timestamp ≤ c.timestamp then c :: x :: xs
      else x :: insertByTsDesc c xs

/-- Stable sort by timestamp descending: the model of ORDER BY timestamp DESC. -/
def sortByTsDesc : List ConversationRecord → List ConversationRecord
  | [] => []
  | x :: xs => insertByTsDesc x (sortByTsDesc xs)

/-- SELECT ... FROM conversations WHERE user_id = ? ORDER BY timestamp DESC. -/
def userConversationsDesc (s : Store) (uid : String) : List ConversationRecord :=
  sortByTsDesc (s.conversations.filter (fun c => c.user_id = uid))

/-- The first four context lines (src/memory.py lines 70-82): each is
emitted only when the corresponding column value is truthy
(resp. the counter is positive). -/
def profileParts (u : UserProfile) : List String :=
  (if jtruthy u.name then ["User\x27s name: " ++ jstr u.name] else []) ++
  (if jtruthy u.personality_type then ["Personality: " ++ jstr u.personality_type] else []) ++
  (if jtruthy u.communication_style then
      ["Communication style: " ++ jstr u.communication_style] else []) ++
  (if u.total_conversations > 0 then
      ["Total conversations: " ++ toString u.total_conversations] else [])

/-- The recent-history context lines (src/memory.py lines 85-89): when the
fetched window `recent` is non-empty, a header line, then for each element
of reversed(recent[-3:]) the two lines "User: ..." and "ORA: ...".
Python recent[-3:] is the last three elements, i.e. drop (length - 3). -/
def historyParts (recent : List ConversationRecord) : List String :=
  if recent.isEmpty then []
  else
    "Recent conversation history:" ::
      (((recent.drop (recent.length - 3)).reverse.map
        (fun c => ["User: " ++ c.user_message, "ORA: " ++ c.ora_response])).flatten)

/-- All context lines, in the order the code appends them. -/
def contextParts (u : UserProfile) (recent : List ConversationRecord) : List String :=
  profileParts u ++ historyParts recent

/-- The separator the code actually joins with (src/memory.py line 91):
the Python source reads a double backslash followed by n inside a string
literal, which denotes the two-character text backslash-n, not a newline. -/
def contextSep : String := "\\n"

/-- The assembled context string (src/memory.py line 91). -/
def contextString (parts : List String) : String :=
  if parts.isEmpty then "Returning user with no previous context"
  else String.intercalate contextSep parts

/-- Response payload of the get-context handler.  Fields absent from one
of the two JSON shapes are `none`. -/
structure ContextResponse where
  is_new_user : Bool
  user_id : String
  context : String
  onboarding_complete : Bool
  total_conversations : Nat
  suggested_response : Option String := none
  name : Option JVal := none
  personality_type : Option JVal := none
  communication_style : Option JVal := none
  recent_conversations_count : Option Nat := none
deriving DecidableEq, Repr

/-- UPDATE users SET last_visit = ? WHERE user_id = ?, as a row transform. -/
def touchRow (uid : String) (now : Nat) (u : UserProfile) : UserProfile :=
  if u.user_id = uid then { u with last_visit := now } else u

def newUserGreeting : String :=
  "Hi! I\x27m ORA, your wellness companion. What\x27s your name?"

/-- POST /api/memory/get-context (src/memory.py lines 16-106).
Returns the response (or an HTTP error code) and the successor store. -/
def get_user_context (uid : String) (now : Nat) (s : Store) :
    Except Nat ContextResponse × Store :=
  if uid = "" then (.error 400, s)
  else
    match findUser s uid with
    | none =>
        let u : UserProfile :=
          { user_id := uid, first_visit := now, last_visit := now,
            onboarding_complete := .bool false, total_conversations := 0 }
        (.ok { is_new_user := true, user_id := uid,
               context := "New user - start onboarding",
               onboarding_complete := false, total_conversations := 0,
               suggested_response := some newUserGreeting },
         { s with users := s.users ++ [u] })
    | some u =>
        let recent := (userConversationsDesc s uid).take 5
        let parts := contextParts u recent
        (.ok { is_new_user := false, user_id := uid,
               context := contextString parts,
               onboarding_complete := jtruthy u.onboarding_complete,
               total_conversations := u.total_conversations,
               name := some u.name,
               personality_type := some u.personality_type,
               communication_style := some u.communication_style,
               recent_conversations_count := some recent.length },
         { s with users := s.users.map (touchRow uid now) })

/-- Response payload of the save-conversation handler. -/
structure SaveResponse where
  status : String
  user_id : String
  timestamp : Nat
deriving DecidableEq, Repr

/-- The AUTOINCREMENT id assigned to the next conversation row. -/
def nextConvId (s : Store) : Nat :=
  ((s.conversations.map (fun c => c.id)).foldr max 0) + 1

/-- UPDATE users SET total_conversations = total_conversations + 1,
last_visit = ? WHERE user_id = ?, as a row transform. -/
def bumpRow (uid : String) (now : Nat) (u : UserProfile) : UserProfile :=
  if u.user_id = uid then
    { u with total_conversations := u.total_conversations + 1, last_visit := now }
  else u

/-- POST /api/memory/save-conversation (src/memory.py lines 108-149).
Missing request fields are modelled as empty strings, matching the falsy
check `not all([user_id, user_message, ora_response])`.  The insert and the
counter update are committed by a single conn.commit(), hence one pure
transition. -/
def save_conversation (uid umsg oresp emotion topic sess : String) (now : Nat)
    (s : Store) : Except Nat SaveResponse × Store :=
  if uid = "" ∨ umsg = "" ∨ oresp = "" then (.error 400, s)
  else
    let r : ConversationRecord :=
      { id := nextConvId s, user_id := uid, timestamp := now,
        user_message := umsg, ora_response := oresp,
        emotion := emotion, topic := topic, session_id := sess }
    (.ok { status := "saved", user_id := uid, timestamp := now },
     { users := s.users.map (bumpRow uid now),
       conversations := s.conversations ++ [r] })

/-- Response payload of the search-conversations handler. -/
structure SearchResponse where
  results : List ConversationRecord
  count : Nat
  user_id : String
deriving DecidableEq, Repr

/-- POST /api/memory/search-conversations (src/memory.py lines 207-248).
`limit` is data.get, defaulting to 50 only when the key is absent; the
value is then passed verbatim to the SQL LIMIT clause, where SQLite treats
a negative limit as no limit and 0 as zero rows. -/
def search_conversations (uid : String) (limit : Option Int) (s : Store) :
    Except Nat SearchResponse × Store :=
  if uid = "" then (.error 400, s)
  else
    let l : Int := limit.getD 50
    let allDesc := userConversationsDesc s uid
    let results := if l < 0 then allDesc else allDesc.take l.toNat
    (.ok { results := results, count := results.length, user_id := uid }, s)

/-- data.get(key): first binding of the key in the request object. -/
def jGet (data : List (String × JVal)) (k : String) : Option JVal :=
  (data.find? (fun p => p.fst = k)).map (fun p => p.snd)

/-- Whether the patch mentions at least one recognized profile column
(src/memory.py lines 267-288: otherwise the handler answers 400). -/
def hasRecognizedField (data : List (String × JVal)) : Bool :=
  (jGet data "name").isSome ∨ (jGet data "personality_type").isSome ∨
  (jGet data "communication_style").isSome ∨ (jGet data "onboarding_complete").isSome ∨
  (jGet data "preferences").isSome

/-- The SET clause of the dynamically built UPDATE, as a row transform:
each recognized key present in the request overwrites its column, and
last_visit is always set (src/memory.py lines 263-296). -/
def applyPatch (data : List (String × JVal)) (now : Nat) (u : UserProfile) :
    UserProfile :=
  let u := match jGet data "name" with
    | some v => { u with name := v } | none => u
  let u := match jGet data "personality_type" with
    | some v => { u with personality_type := v } | none => u
  let u := match jGet data "communication_style" with
    | some v => { u with communication_style := v } | none => u
  let u := match jGet data "onboarding_complete" with
    | some v => { u with onboarding_complete := v } | none => u
  let u := match jGet data "preferences" with
    | some v => { u with preferences := .str (jsonDumps v) } | none => u
  { u with last_visit := now }

/-- The UPDATE applied to one stored row: rows whose key matches the
request user_id receive the patch, all others are untouched. -/
def patchRow (data : List (String × JVal)) (now : Nat) (uid : String)
    (u : UserProfile) : UserProfile :=
  if u.user_id = uid then applyPatch data now u else u

/-- Response payload of the update-profile handler. -/
structure UpdateResponse where
  status : String
  user_id : String
  updated_fields : List String
deriving DecidableEq, Repr

/-- POST /api/memory/update-profile (src/memory.py lines 250-308).
The UPDATE ... WHERE user_id = ? touches exactly the rows whose key
matches; when no row matches it touches nothing, and the handler still
reports status updated with updated_fields = list(data.keys()). -/
def update_profile (data : List (String × JVal)) (now : Nat) (s : Store) :
    Except Nat UpdateResponse × Store :=
  match jGet data "user_id" with
  | none => (.error 400, s)
  | some v =>
      if jtruthy v = false then (.error 400, s)
      else
        let uid := jstr v
        if hasRecognizedField data = false then (.error 400, s)
        else
          (.ok { status := "updated", user_id := uid,
                 updated_fields := data.map (fun p => p.fst) },
           { s with users := s.users.map (patchRow data now uid) })

/-- Response payload of the get-stats handler. -/
structure StatsResponse where
  user_id : String
  name : JVal
  total_conversations : Nat
  recent_conversations : Nat
  first_visit : Nat
  last_visit : Nat
  onboarding_complete : Bool
deriving DecidableEq, Repr

/-- Seconds in seven days, the recency window of get-stats. -/
def weekSeconds : Nat := 7 * 86400

/-- POST /api/memory/get-stats (src/memory.py lines 310-352).  The reported
total is COUNT(*) over the conversations table for this user, not the
profile counter; unknown users get a 404 before any write. -/
def get_user_stats (uid : String) (now : Nat) (s : Store) :
    Except Nat StatsResponse × Store :=
  if uid = "" then (.error 400, s)
  else
    match findUser s uid with
    | none => (.error 404, s)
    | some u =>
        let total := (s.conversations.filter (fun c => c.user_id = uid)).length
        let weekAgo := now - weekSeconds
        let recent := (s.conversations.filter
          (fun c => c.user_id = uid ∧ weekAgo < c.timestamp)).length
        (.ok { user_id := uid, name := u.name,
               total_conversations := total, recent_conversations := recent,
               first_visit := u.first_visit, last_visit := u.last_visit,
               onboarding_complete := jtruthy u.onboarding_complete }, s)

/-! ### Derived notions, projections and concrete fixtures -/

/-- Timestamp order on records: the left one is at least as recent. -/
def tsDescOrd (a b : ConversationRecord) : Prop := b.timestamp ≤ a.timestamp

/-- Whether the list starts with the given segment. -/
def segAt (seg l : List String) : Bool := decide (l.take seg.length = seg)

/-- Whether the segment occurs contiguously somewhere in the list. -/
def hasSegment (seg : List String) : List String → Bool
  | [] => seg.isEmpty
  | x :: t => segAt seg (x :: t) || hasSegment seg t

/-- The context string of a get-context outcome (empty on an error). -/
def ctxOf (out : Except Nat ContextResponse × Store) : String :=
  match out.1 with
  | .ok r => r.context
  | .error _ => ""

/-- The record count of a search-conversations outcome (0 on an error). -/
def countOf (out : Except Nat SearchResponse × Store) : Nat :=
  match out.1 with
  | .ok r => r.count
  | .error _ => 0

def uAlex : UserProfile :=
  { user_id := "alex", name := .str "Alex", first_visit := 0, last_visit := 0,
    total_conversations := 3 }

def storeAlex : Store := { users := [uAlex], conversations := [] }

def bobRec (i : Nat) : ConversationRecord :=
  { id := i, user_id := "bob", timestamp := i,
    user_message := "m" ++ toString i, ora_response := "o" ++ toString i,
    emotion := "", topic := "", session_id := "" }

def uBob : UserProfile := { user_id := "bob", first_visit := 0, last_visit := 0 }

def storeBob : Store :=
  { users := [uBob],
    conversations := [bobRec 1, bobRec 2, bobRec 3, bobRec 4, bobRec 5] }

def windowBob : List ConversationRecord :=
  (userConversationsDesc storeBob "bob").take 5

/-- The history segment claimed for storeBob: the three most recent
records of the fetched window, re-ordered chronologically ascending. -/
def claimHistC2 : List String :=
  "Recent conversation history:" ::
    ((windowBob.take 3).reverse.map
      (fun c => ["User: " ++ c.user_message, "ORA: " ++ c.ora_response])).flatten

def dataSam : List (String × JVal) := [("user_id", .str "sam"), ("name", .str "Sam")]

def bigRec (i : Nat) : ConversationRecord :=
  { id := i + 1, user_id := "u", timestamp := 0, user_message := "m",
    ora_response := "o", emotion := "", topic := "", session_id := "" }

def bigStore : Store :=
  { users := [], conversations := (List.range 51).map bigRec }

/-- A request body whose patch is exactly a name of Sam. -/
def patchNameSam (uid : String) : List (String × JVal) :=
  [("user_id", .str uid), ("name", .str "Sam")]

def uCarol : UserProfile :=
  { user_id := "carol", name := .str "Caro", personality_type := .str "INFP",
    communication_style := .str "gentle", first_visit := 1, last_visit := 4,
    onboarding_complete := .bool true, preferences := .str "p",
    total_conversations := 2 }

def uDan : UserProfile :=
  { user_id := "dan", name := .str "Dan", first_visit := 2, last_visit := 2 }

def storeCarol : Store := { users := [uCarol, uDan], conversations := [] }

def uWal : UserProfile := { user_id := "wal", first_visit := 1, last_visit := 1 }

def storeWal : Store := { users := [uWal], conversations := [] }

def dataMood : List (String × JVal) :=
  [("user_id", .str "wal"), ("name", .str "Wally"), ("mood", .str "calm")]

/-- A store built by the handlers themselves: the conversation is saved
while no profile exists (the counter update touches no row), then the
profile is created by get-context with a zero counter. -/
def storeDiv : Store :=
  (get_user_context "u" 2 (save_conversation "u" "hi" "yo" "" "" "" 1 emptyStore).2).2

def uDiv : UserProfile :=
  { user_id := "u", first_visit := 2, last_visit := 2,
    onboarding_complete := .bool false, total_conversations := 0 }

/-! ### Helper lemmas about the embedded operations -/

/-- Inserting into the descending-sorted list is a permutation of consing. -/
theorem insertByTsDesc_perm (c : ConversationRecord) (l : List ConversationRecord) :
    (insertByTsDesc c l).Perm (c :: l) := by
  induction l with
  | nil => simp [insertByTsDesc]
  | cons x xs ih =>
      rw [insertByTsDesc]
      by_cases hx : x.timestamp ≤ c.timestamp
      · rw [if_pos hx]
      · rw [if_neg hx]
        exact (ih.cons x).trans (List.Perm.swap c x xs)

/-- The sort is a permutation of its input. -/
theorem sortByTsDesc_perm (l : List ConversationRecord) :
    (sortByTsDesc l).Perm l := by
  induction l with
  | nil => simp [sortByTsDesc]
  | cons x xs ih =>
      rw [sortByTsDesc]
      exact (insertByTsDesc_perm x (sortByTsDesc xs)).trans (ih.cons x)

theorem sortByTsDesc_length (l : List ConversationRecord) :
    (sortByTsDesc l).length = l.length :=
  (sortByTsDesc_perm l).length_eq

theorem insertByTsDesc_pairwise (c : ConversationRecord) (l : List ConversationRecord)
    (h : l.Pairwise tsDescOrd) : (insertByTsDesc c l).Pairwise tsDescOrd := by
  induction l with
  | nil => simp [insertByTsDesc, tsDescOrd]
  | cons x xs ih =>
      rw [List.pairwise_cons] at h
      obtain ⟨hx, hxs⟩ := h
      rw [insertByTsDesc]
      by_cases hle : x.timestamp ≤ c.timestamp
      · rw [if_pos hle]
        refine List.Pairwise.cons ?_ (List.Pairwise.cons hx hxs)
        intro y hy
        rcases List.mem_cons.mp hy with hy | hy
        · exact hy ▸ hle
        · exact le_trans (hx y hy) hle
      · rw [if_neg hle]
        refine List.Pairwise.cons ?_ (ih hxs)
        intro y hy
        rcases List.mem_cons.mp ((insertByTsDesc_perm c xs).mem_iff.mp hy) with hy | hy
        · exact hy ▸ le_of_lt (lt_of_not_le hle)
        · exact hx y hy

/-- The sort really sorts: pairwise non-increasing timestamps. -/
theorem sortByTsDesc_pairwise (l : List ConversationRecord) :
    (sortByTsDesc l).Pairwise tsDescOrd := by
  induction l with
  | nil => simp [sortByTsDesc]
  | cons x xs ih => exact insertByTsDesc_pairwise x (sortByTsDesc xs) ih

/-- find? over an appended singleton when the front part has no hit. -/
theorem find?_append_single {α} (p : α → Bool) (l : List α) (a : α)
    (h : l.find? p = none) (ha : p a = true) :
    (l ++ [a]).find? p = some a := by
  induction l with
  | nil => simp [List.find?, ha]
  | cons x xs ih =>
      rw [List.find?_eq_none] at h
      have hx : p x = false := by
        have := h x (List.mem_cons_self x xs)
        simpa using this
      have hxs : xs.find? p = none := by
        rw [List.find?_eq_none]
        intro y hy
        exact h y (List.mem_cons_of_mem x hy)
      simpa [List.find?_cons, hx] using ih hxs

/-- Mapping a keyed row update over a list with no matching row is the
identity. -/
theorem map_rowMap_of_none (l : List UserProfile) (uid : String)
    (f : UserProfile → UserProfile)
    (hnone : l.find? (fun u => u.user_id = uid) = none) :
    l.map (fun u => if u.user_id = uid then f u else u) = l := by
  induction l with
  | nil => rfl
  | cons a t ih =>
      rw [List.find?_eq_none] at hnone
      have ha : ¬ a.user_id = uid := by
        have := hnone a (List.mem_cons_self a t)
        simpa using this
      have ht : t.find? (fun u => u.user_id = uid) = none := by
        rw [List.find?_eq_none]
        intro y hy
        exact hnone y (List.mem_cons_of_mem a hy)
      simp [List.map, ha, ih ht]

/-- Looking the key up after a keyed row update: the stored row is the
updated one, provided the update preserves the key. -/
theorem find?_map_rowMap_eq (l : List UserProfile) (uid : String)
    (f : UserProfile → UserProfile) (hpres : ∀ u, (f u).user_id = u.user_id) :
    (l.map (fun u => if u.user_id = uid then f u else u)).find?
        (fun u => u.user_id = uid)
      = (l.find? (fun u => u.user_id = uid)).map f := by
  induction l with
  | nil => rfl
  | cons a t ih =>
      by_cases ha : a.user_id = uid
      · simp [List.map, List.find?_cons, ha, hpres a]
      · simp [List.map, List.find?_cons, ha, ih]

/-- Looking up a different key after a keyed row update: unchanged. -/
theorem find?_map_rowMap_ne (l : List UserProfile) (uid uid2 : String)
    (f : UserProfile → UserProfile) (hpres : ∀ u, (f u).user_id = u.user_id)
    (hne : uid2 ≠ uid) :
    (l.map (fun u => if u.user_id = uid then f u else u)).find?
        (fun u => u.user_id = uid2)
      = l.find? (fun u => u.user_id = uid2) := by
  induction l with
  | nil => rfl
  | cons a t ih =>
      by_cases ha : a.user_id = uid
      · have h2 : ¬ (f a).user_id = uid2 := by
          rw [hpres a, ha]
          exact fun h => hne h.symm
        have h3 : ¬ a.user_id = uid2 := by
          rw [ha]
          exact fun h => hne h.symm
        rw [List.map_cons, if_pos ha, List.find?_cons_of_neg _ (by simpa using h2),
            ih, List.find?_cons_of_neg _ (by simpa using h3)]
      · by_cases hb : a.user_id = uid2
        · rw [List.map_cons, if_neg ha, List.find?_cons_of_pos _ (by simpa using hb),
              List.find?_cons_of_pos _ (by simpa using hb)]
        · rw [List.map_cons, if_neg ha, List.find?_cons_of_neg _ (by simpa using hb),
              ih, List.find?_cons_of_neg _ (by simpa using hb)]

/-- The patch never writes the user_id column (the SET clause contains
only profile columns and last_visit). -/
theorem applyPatch_user_id (data : List (String × JVal)) (now : Nat)
    (u : UserProfile) : (applyPatch data now u).user_id = u.user_id := by
  unfold applyPatch
  rcases jGet data "name" with _ | v1 <;>
    rcases jGet data "personality_type" with _ | v2 <;>
      rcases jGet data "communication_style" with _ | v3 <;>
        rcases jGet data "onboarding_complete" with _ | v4 <;>
          rcases jGet data "preferences" with _ | v5 <;> rfl

theorem segAt_iff (seg l : List String) :
    segAt seg l = true ↔ ∃ suf, l = seg ++ suf := by
  constructor
  · intro h
    refine ⟨l.drop seg.length, ?_⟩
    have h2 : l.take seg.length = seg := by simpa [segAt] using h
    conv_lhs => rw [← List.take_append_drop seg.length l]
    rw [h2]
  · rintro ⟨suf, rfl⟩
    simp [segAt]

/-- Segment occurrence is exactly the existence of a decomposition. -/
theorem hasSegment_iff (seg l : List String) :
    hasSegment seg l = true ↔ ∃ pre suf, l = pre ++ (seg ++ suf) := by
  induction l with
  | nil =>
      rw [hasSegment]
      constructor
      · intro h
        exact ⟨[], [], by simp [List.isEmpty_iff.mp h]⟩
      · rintro ⟨pre, suf, h⟩
        have h2 := (List.append_eq_nil.mp h.symm).2
        have h3 := (List.append_eq_nil.mp h2).1
        simp [List.isEmpty_iff, h3]
  | cons x t ih =>
      rw [hasSegment, Bool.or_eq_true]
      constructor
      · rintro (h | h)
        · obtain ⟨suf, hsuf⟩ := (segAt_iff seg (x :: t)).mp h
          exact ⟨[], suf, by simpa using hsuf⟩
        · obtain ⟨pre, suf, hps⟩ := ih.mp h
          exact ⟨x :: pre, suf, by rw [List.cons_append, ← hps]⟩
      · rintro ⟨pre, suf, h⟩
        match pre with
        | [] =>
            left
            exact (segAt_iff seg (x :: t)).mpr ⟨suf, by simpa using h⟩
        | y :: pre2 =>
            right
            rw [List.cons_append] at h
            have h2 := List.tail_eq_of_cons_eq h
            exact ih.mpr ⟨pre2, suf, h2⟩

/-! ### Claim C1 -/

/-- C1 is false as stated: at this existing-user call the produced context
lines are non-empty, yet the returned context differs from those lines
joined with the single newline character (the code joins on the
two-character text backslash-n instead). -/
theorem c1_newline_counterexample :
    contextParts uAlex ((userConversationsDesc storeAlex "alex").take 5) ≠ [] ∧
    ctxOf (get_user_context "alex" 100 storeAlex) ≠
      String.intercalate "\n"
        (contextParts uAlex ((userConversationsDesc storeAlex "alex").take 5)) := by
  decide

/-- C1 (amended): for every existing-user get-context call that produces at
least one context line, the returned context is those lines joined with the
two-character separator backslash followed by the letter n; if no lines
were produced it is exactly "Returning user with no previous context". -/
theorem c1_context_join (s : Store) (uid : String) (now : Nat) (u : UserProfile)
    (h0 : uid ≠ "") (h1 : findUser s uid = some u) :
    (contextParts u ((userConversationsDesc s uid).take 5) ≠ [] →
        ctxOf (get_user_context uid now s) =
          String.intercalate "\\n"
            (contextParts u ((userConversationsDesc s uid).take 5))) ∧
    (contextParts u ((userConversationsDesc s uid).take 5) = [] →
        ctxOf (get_user_context uid now s) =
          "Returning user with no previous context") := by
  constructor <;> intro hp <;>
    simp [ctxOf, get_user_context, h0, h1, contextString, contextSep, hp]

theorem c1_context_join_witness :
    ("alex" ≠ "" ∧ findUser storeAlex "alex" = some uAlex) ∧
    ctxOf (get_user_context "alex" 100 storeAlex) =
      String.intercalate "\\n"
        (contextParts uAlex ((userConversationsDesc storeAlex "alex").take 5)) :=
  ⟨⟨by decide, by decide⟩,
   (c1_context_join storeAlex "alex" 100 uAlex (by decide) (by decide)).1 (by decide)⟩

/-! ### Claim C2 -/

/-- C2 is false as stated: this user has five recorded conversations, so
the fetched window is non-empty, but the produced context lines nowhere
contain the header followed by the two-line pairs for the three most
recent records of the window in ascending order: the code renders the
three oldest records of the window instead. -/
theorem c2_most_recent_counterexample :
    windowBob ≠ [] ∧
    ctxOf (get_user_context "bob" 100 storeBob) =
      String.intercalate "\\n" (contextParts uBob windowBob) ∧
    ¬ ∃ pre suf, contextParts uBob windowBob = pre ++ (claimHistC2 ++ suf) := by
  refine ⟨by decide, by decide, fun hex => ?_⟩
  have h := (hasSegment_iff claimHistC2 (contextParts uBob windowBob)).mpr hex
  have h2 : hasSegment claimHistC2 (contextParts uBob windowBob) = false := by decide
  rw [h2] at h
  exact Bool.false_ne_true h

/-- C2 (amended): for every existing-user get-context call whose fetched
window is non-empty, the context is the profile lines followed by the
header line and then, for the three OLDEST records of the fetched window
in chronologically ascending order, the two lines User and ORA. -/
theorem c2_history_lines (s : Store) (uid : String) (now : Nat) (u : UserProfile)
    (h0 : uid ≠ "") (h1 : findUser s uid = some u)
    (h2 : (userConversationsDesc s uid).take 5 ≠ []) :
    ctxOf (get_user_context uid now s) =
      String.intercalate "\\n"
        (profileParts u ++
          ("Recent conversation history:" ::
            ((((userConversationsDesc s uid).take 5).drop
                (((userConversationsDesc s uid).take 5).length - 3)).reverse.map
              (fun c => ["User: " ++ c.user_message,
                         "ORA: " ++ c.ora_response])).flatten)) := by
  simp [ctxOf, get_user_context, h0, h1, contextString, contextSep,
        contextParts, historyParts, h2]

theorem c2_history_lines_witness :
    ("bob" ≠ "" ∧ findUser storeBob "bob" = some uBob ∧
      (userConversationsDesc storeBob "bob").take 5 ≠ []) ∧
    ctxOf (get_user_context "bob" 100 storeBob) =
      String.intercalate "\\n"
        (profileParts uBob ++
          ("Recent conversation history:" ::
            ((((userConversationsDesc storeBob "bob").take 5).drop
                (((userConversationsDesc storeBob "bob").take 5).length - 3)).reverse.map
              (fun c => ["User: " ++ c.user_message,
                         "ORA: " ++ c.ora_response])).flatten)) :=
  ⟨⟨by decide, by decide, by decide⟩,
   c2_history_lines storeBob "bob" 100 uBob (by decide) (by decide) (by decide)⟩

/-! ### Claim C3 -/

/-- C3: a user id never seen before gets is_new_user true exactly once,
with the fixed context, the fixed greeting, onboarding_complete false and
total_conversations 0; a profile is persisted, and the following call with
the same id reports is_new_user false. -/
theorem c3_new_user_once (s : Store) (uid : String) (now now2 : Nat)
    (h0 : uid ≠ "") (h1 : findUser s uid = none) :
    (get_user_context uid now s).1 =
      .ok { is_new_user := true, user_id := uid,
            context := "New user - start onboarding",
            onboarding_complete := false, total_conversations := 0,
            suggested_response := some newUserGreeting } ∧
    findUser (get_user_context uid now s).2 uid =
      some { user_id := uid, first_visit := now, last_visit := now,
             onboarding_complete := .bool false, total_conversations := 0 } ∧
    (match (get_user_context uid now2 (get_user_context uid now s).2).1 with
     | .ok r2 => r2.is_new_user = false
     | .error _ => False) := by
  have hstore : (get_user_context uid now s).2 =
      { s with users := s.users ++
          [{ user_id := uid, first_visit := now, last_visit := now,
             onboarding_complete := .bool false, total_conversations := 0 }] } := by
    simp [get_user_context, h0, h1]
  have hfind : findUser (get_user_context uid now s).2 uid =
      some { user_id := uid, first_visit := now, last_visit := now,
             onboarding_complete := .bool false, total_conversations := 0 } := by
    rw [hstore, findUser]
    exact find?_append_single _ s.users _ h1 (by simp)
  refine ⟨by simp [get_user_context, h0, h1], hfind, ?_⟩
  have hlast : ∀ t : Store,
      findUser t uid =
        some { user_id := uid, first_visit := now, last_visit := now,
               onboarding_complete := .bool false, total_conversations := 0 } →
      (match (get_user_context uid now2 t).1 with
       | .ok r2 => r2.is_new_user = false
       | .error _ => False) := by
    intro t ht
    simp [get_user_context, h0, ht]
  exact hlast _ hfind

theorem c3_new_user_once_witness :
    ("w" ≠ "" ∧ findUser emptyStore "w" = none) ∧
    ((get_user_context "w" 7 emptyStore).1 =
      .ok { is_new_user := true, user_id := "w",
            context := "New user - start onboarding",
            onboarding_complete := false, total_conversations := 0,
            suggested_response := some newUserGreeting } ∧
    findUser (get_user_context "w" 7 emptyStore).2 "w" =
      some { user_id := "w", first_visit := 7, last_visit := 7,
             onboarding_complete := .bool false, total_conversations := 0 } ∧
    (match (get_user_context "w" 9 (get_user_context "w" 7 emptyStore).2).1 with
     | .ok r2 => r2.is_new_user = false
     | .error _ => False)) :=
  ⟨⟨by decide, by decide⟩,
   c3_new_user_once emptyStore "w" 7 9 (by decide) (by decide)⟩

/-! ### Claim C4 -/

/-- C4 is false as stated: updating the profile of a user with no stored
profile, using a patch with the recognized key name, creates nothing: the
store still holds no profile for that user afterwards, although the
handler answers status updated. -/
theorem c4_counterexample :
    hasRecognizedField dataSam = true ∧
    findUser emptyStore "sam" = none ∧
    (update_profile dataSam 100 emptyStore).1 =
      .ok { status := "updated", user_id := "sam",
            updated_fields := ["user_id", "name"] } ∧
    findUser (update_profile dataSam 100 emptyStore).2 "sam" = none := by
  decide

/-- C4 (amended): an update-profile call whose patch has at least one
recognized key but whose user id has no stored profile creates no profile:
the SQL update matches no row, the store is returned unchanged, and the
handler still answers status updated with the request keys echoed back. -/
theorem c4_update_missing_profile (data : List (String × JVal)) (now : Nat)
    (s : Store) (uid : String)
    (hid : jGet data "user_id" = some (.str uid)) (h0 : uid ≠ "")
    (hrec : hasRecognizedField data = true)
    (hnone : findUser s uid = none) :
    update_profile data now s =
      (.ok { status := "updated", user_id := uid,
             updated_fields := data.map (fun p => p.fst) }, s) := by
  have hmap : s.users.map (patchRow data now uid) = s.users :=
    map_rowMap_of_none s.users uid (applyPatch data now) hnone
  simp [update_profile, hid, jtruthy, h0, jstr, hrec, hmap]

theorem c4_update_missing_profile_witness :
    (jGet dataSam "user_id" = some (.str "sam") ∧ "sam" ≠ "" ∧
      hasRecognizedField dataSam = true ∧ findUser emptyStore "sam" = none) ∧
    update_profile dataSam 100 emptyStore =
      (.ok { status := "updated", user_id := "sam",
             updated_fields := dataSam.map (fun p => p.fst) }, emptyStore) :=
  ⟨⟨by decide, by decide, by decide, by decide⟩,
   c4_update_missing_profile dataSam 100 emptyStore "sam"
     (by decide) (by decide) (by decide) (by decide)⟩

/-! ### Claim C5 -/

/-- C5 is false as stated: with the non-positive limit -1 the response
holds 51 records, more than the default 50 the claim says a non-positive
limit is coerced to. -/
theorem c5_counterexample :
    countOf (search_conversations "u" (some (-1)) bigStore) = 51 ∧
    ¬ countOf (search_conversations "u" (some (-1)) bigStore) ≤ 50 := by
  decide

/-- C5 (amended): the limit defaults to 50 only when absent; a
non-positive limit is passed through to the query, where a negative value
yields every record of the user and zero yields none; the result list is
the records of that user ordered by timestamp descending, truncated at the
effective limit when it is non-negative, and its length never exceeds a
non-negative effective limit. -/
theorem c5_limit_semantics (uid : String) (limit : Option Int) (s : Store)
    (h0 : uid ≠ "") :
    (search_conversations uid limit s).1 =
      .ok { results := if (limit.getD 50) < 0 then userConversationsDesc s uid
                       else (userConversationsDesc s uid).take (limit.getD 50).toNat,
            count := (if (limit.getD 50) < 0 then userConversationsDesc s uid
                      else (userConversationsDesc s uid).take (limit.getD 50).toNat).length,
            user_id := uid } ∧
    (search_conversations uid limit s).2 = s ∧
    (userConversationsDesc s uid).Pairwise tsDescOrd ∧
    ((userConversationsDesc s uid).take (limit.getD 50).toNat).Pairwise tsDescOrd ∧
    (userConversationsDesc s uid).Perm
      (s.conversations.filter (fun c => c.user_id = uid)) ∧
    ((userConversationsDesc s uid).take (limit.getD 50).toNat).length ≤
      (limit.getD 50).toNat := by
  refine ⟨by simp [search_conversations, h0], by simp [search_conversations, h0],
          sortByTsDesc_pairwise _, ?_, sortByTsDesc_perm _, ?_⟩
  · exact (sortByTsDesc_pairwise _).sublist (List.take_sublist _ _)
  · exact List.length_take_le _ _

theorem c5_limit_semantics_witness :
    ("u" ≠ "") ∧
    ((search_conversations "u" none bigStore).1 =
      .ok { results := if ((none : Option Int).getD 50) < 0
                       then userConversationsDesc bigStore "u"
                       else (userConversationsDesc bigStore "u").take
                         ((none : Option Int).getD 50).toNat,
            count := (if ((none : Option Int).getD 50) < 0
                      then userConversationsDesc bigStore "u"
                      else (userConversationsDesc bigStore "u").take
                        ((none : Option Int).getD 50).toNat).length,
            user_id := "u" } ∧
    (search_conversations "u" none bigStore).2 = bigStore ∧
    (userConversationsDesc bigStore "u").Pairwise tsDescOrd ∧
    ((userConversationsDesc bigStore "u").take
        ((none : Option Int).getD 50).toNat).Pairwise tsDescOrd ∧
    (userConversationsDesc bigStore "u").Perm
      (bigStore.conversations.filter (fun c => c.user_id = "u")) ∧
    ((userConversationsDesc bigStore "u").take
        ((none : Option Int).getD 50).toNat).length ≤
      ((none : Option Int).getD 50).toNat) :=
  ⟨by decide, c5_limit_semantics "u" none bigStore (by decide)⟩

/-! ### Claim C6 -/

theorem applyPatch_patchNameSam (uid : String) (now : Nat) (u : UserProfile) :
    applyPatch (patchNameSam uid) now u =
      { u with name := .str "Sam", last_visit := now } := rfl

/-- C6: patching an existing profile with only a name rewrites exactly the
rows whose key matches, changing only the name and last_visit columns of
those rows; every non-matching row is returned unchanged in place and the
conversation log is untouched. -/
theorem c6_name_patch_frame (s : Store) (uid : String) (now : Nat)
    (u : UserProfile) (h0 : uid ≠ "") (h1 : findUser s uid = some u) :
    (update_profile (patchNameSam uid) now s).1 =
      .ok { status := "updated", user_id := uid,
            updated_fields := ["user_id", "name"] } ∧
    (update_profile (patchNameSam uid) now s).2.users =
      s.users.map (fun v => if v.user_id = uid
        then { v with name := .str "Sam", last_visit := now } else v) ∧
    (update_profile (patchNameSam uid) now s).2.conversations =
      s.conversations ∧
    findUser (update_profile (patchNameSam uid) now s).2 uid =
      some { u with name := .str "Sam", last_visit := now } := by
  have hid : jGet (patchNameSam uid) "user_id" = some (.str uid) := rfl
  have hrec : hasRecognizedField (patchNameSam uid) = true := rfl
  have husers : (update_profile (patchNameSam uid) now s).2.users =
      s.users.map (fun v => if v.user_id = uid
        then { v with name := .str "Sam", last_visit := now } else v) := by
    simp only [update_profile, hid, jtruthy, jstr, hrec]
    simp [h0, patchRow, applyPatch_patchNameSam]
  have hflds : (patchNameSam uid).map (fun p => p.fst) = ["user_id", "name"] := rfl
  refine ⟨?_, husers, ?_, ?_⟩
  · simp [update_profile, hid, jtruthy, jstr, hrec, h0, hflds]
  · simp [update_profile, hid, jtruthy, jstr, hrec, h0]
  · have hfind :
        (s.users.map (fun v => if v.user_id = uid
          then { v with name := .str "Sam", last_visit := now } else v)).find?
            (fun v => v.user_id = uid)
          = (s.users.find? (fun v => v.user_id = uid)).map
              (fun v => { v with name := .str "Sam", last_visit := now }) :=
      find?_map_rowMap_eq s.users uid _ (fun v => rfl)
    rw [findUser, husers, hfind]
    rw [findUser] at h1
    rw [h1]
    rfl

theorem c6_name_patch_frame_witness :
    ("carol" ≠ "" ∧ findUser storeCarol "carol" = some uCarol) ∧
    ((update_profile (patchNameSam "carol") 9 storeCarol).1 =
      .ok { status := "updated", user_id := "carol",
            updated_fields := ["user_id", "name"] } ∧
    (update_profile (patchNameSam "carol") 9 storeCarol).2.users =
      storeCarol.users.map (fun v => if v.user_id = "carol"
        then { v with name := .str "Sam", last_visit := 9 } else v) ∧
    (update_profile (patchNameSam "carol") 9 storeCarol).2.conversations =
      storeCarol.conversations ∧
    findUser (update_profile (patchNameSam "carol") 9 storeCarol).2 "carol" =
      some { uCarol with name := .str "Sam", last_visit := 9 }) :=
  ⟨⟨by decide, by decide⟩,
   c6_name_patch_frame storeCarol "carol" 9 uCarol (by decide) (by decide)⟩

/-! ### Claim C7 -/

/-- C7: a save-conversation call for a user with a stored profile either
fails leaving the store exactly as it was, or produces in one transition a
store holding both the appended record and the incremented counter with
the visit touch: neither effect can commit without the other. -/
theorem c7_save_atomic (s : Store) (uid umsg oresp emo top sess : String)
    (now : Nat) (u : UserProfile) (h1 : findUser s uid = some u) :
    (match save_conversation uid umsg oresp emo top sess now s with
     | (.ok _, s1) =>
         s1.conversations = s.conversations ++
           [{ id := nextConvId s, user_id := uid, timestamp := now,
              user_message := umsg, ora_response := oresp, emotion := emo,
              topic := top, session_id := sess }] ∧
         findUser s1 uid =
           some { u with total_conversations := u.total_conversations + 1,
                         last_visit := now }
     | (.error _, s1) => s1 = s) := by
  by_cases hv : uid = "" ∨ umsg = "" ∨ oresp = ""
  · simp [save_conversation, hv]
  · have hfind : (s.users.map (bumpRow uid now)).find? (fun v => v.user_id = uid)
        = (s.users.find? (fun v => v.user_id = uid)).map
            (fun v => { v with total_conversations := v.total_conversations + 1,
                               last_visit := now }) :=
      find?_map_rowMap_eq s.users uid _ (fun v => rfl)
    rw [findUser] at h1
    simp only [save_conversation, if_neg hv]
    exact ⟨by trivial, by rw [findUser, hfind, h1]; rfl⟩

theorem c7_save_atomic_witness :
    findUser storeWal "wal" = some uWal ∧
    (match save_conversation "wal" "hi" "yo" "" "" "" 5 storeWal with
     | (.ok _, s1) =>
         s1.conversations = storeWal.conversations ++
           [{ id := nextConvId storeWal, user_id := "wal", timestamp := 5,
              user_message := "hi", ora_response := "yo", emotion := "",
              topic := "", session_id := "" }] ∧
         findUser s1 "wal" =
           some { uWal with total_conversations := uWal.total_conversations + 1,
                            last_visit := 5 }
     | (.error _, s1) => s1 = storeWal) :=
  ⟨by decide, c7_save_atomic storeWal "wal" "hi" "yo" "" "" "" 5 uWal (by decide)⟩

/-! ### Claim C8 -/

/-- C8: a get-stats call for a user id with no stored profile answers the
not-found error 404 and returns the store exactly as it was, so nothing is
created or written. -/
theorem c8_stats_unknown (s : Store) (uid : String) (now : Nat)
    (h0 : uid ≠ "") (h1 : findUser s uid = none) :
    get_user_stats uid now s = (.error 404, s) := by
  simp [get_user_stats, h0, h1]

theorem c8_stats_unknown_witness :
    ("ghost" ≠ "" ∧ findUser storeAlex "ghost" = none) ∧
    get_user_stats "ghost" 50 storeAlex = (.error 404, storeAlex) :=
  ⟨⟨by decide, by decide⟩, c8_stats_unknown storeAlex "ghost" 50 (by decide) (by decide)⟩

/-! ### Claim C9 -/

/-- C9: every successful update-profile call echoes back updated_fields
equal to the list of ALL keys of the request body in order, including
user_id itself and unrecognized keys, not only the columns applied. -/
theorem c9_updated_fields (data : List (String × JVal)) (now : Nat) (s : Store)
    (v : JVal) (hid : jGet data "user_id" = some v) (ht : jtruthy v = true)
    (hrec : hasRecognizedField data = true) :
    (update_profile data now s).1 =
      .ok { status := "updated", user_id := jstr v,
            updated_fields := data.map (fun p => p.fst) } := by
  simp [update_profile, hid, ht, hrec]

theorem c9_updated_fields_witness :
    (jGet dataMood "user_id" = some (.str "wal") ∧
      jtruthy (JVal.str "wal") = true ∧ hasRecognizedField dataMood = true) ∧
    (update_profile dataMood 8 storeWal).1 =
      .ok { status := "updated", user_id := jstr (.str "wal"),
            updated_fields := dataMood.map (fun p => p.fst) } :=
  ⟨⟨by decide, by decide, by decide⟩,
   c9_updated_fields dataMood 8 storeWal (.str "wal") (by decide) (by decide) (by decide)⟩

/-! ### Claim C10 -/

/-- C10: for a user with a stored profile, get-stats reports
total_conversations as the number of stored conversation records with that
user id, not the profile counter column (which does not appear in the
result at all); the witness exhibits a store where the two values differ
because a conversation was saved before the profile existed. -/
theorem c10_stats_from_log (s : Store) (uid : String) (now : Nat)
    (u : UserProfile) (h0 : uid ≠ "") (h1 : findUser s uid = some u) :
    (get_user_stats uid now s).1 =
      .ok { user_id := uid, name := u.name,
            total_conversations :=
              (s.conversations.filter (fun c => c.user_id = uid)).length,
            recent_conversations :=
              (s.conversations.filter
                (fun c => c.user_id = uid ∧ now - weekSeconds < c.timestamp)).length,
            first_visit := u.first_visit, last_visit := u.last_visit,
            onboarding_complete := jtruthy u.onboarding_complete } := by
  simp [get_user_stats, h0, h1]

theorem c10_stats_from_log_witness :
    ("u" ≠ "" ∧ findUser storeDiv "u" = some uDiv) ∧
    (get_user_stats "u" 3 storeDiv).1 =
      .ok { user_id := "u", name := uDiv.name,
            total_conversations :=
              (storeDiv.conversations.filter (fun c => c.user_id = "u")).length,
            recent_conversations :=
              (storeDiv.conversations.filter
                (fun c => c.user_id = "u" ∧ 3 - weekSeconds < c.timestamp)).length,
            first_visit := uDiv.first_visit, last_visit := uDiv.last_visit,
            onboarding_complete := jtruthy uDiv.onboarding_complete } ∧
    uDiv.total_conversations = 0 ∧
    (storeDiv.conversations.filter (fun c => c.user_id = "u")).length = 1 :=
  ⟨⟨by decide, by decide⟩,
   c10_stats_from_log storeDiv "u" 3 uDiv (by decide) (by decide),
   by decide, by decide⟩

end OraMemory
